import Mathlib

/-!
Verification development for the CrowdSense repository.

The definitions below are shallow embeddings of the JavaScript sources:
the reconnect logic of src/App/hooks/useWebSocket.js, the mock data
generator of the mock WebSocket service, the crowd-level classifier and
name lookup of src/App/constants/Locations.js, and the message handling
of src/App/contexts/WebSocketContext.js.  The Model pipeline (FrameQueue,
OccupancyEvaluator) is present in the repository only through its README;
those components are modelled from the design document, as marked on the
corresponding definitions.
-/

namespace UseWebSocket

/-- Embeds the delay expression of useWebSocket.js line 48:
Math.min(1000 * Math.pow(2, reconnectAttempts), 30000), in milliseconds. -/
def reconnectDelay (reconnectAttempts : ℕ) : ℕ :=
  min (1000 * 2 ^ reconnectAttempts) 30000

/-- The per-hook state of useWebSocket.js that the reconnect logic touches:
the isConnected flag, the reconnectAttempts counter, and the delay of the
pending reconnect timer (none when no timer is scheduled). -/
structure WSHookState where
  isConnected : Bool
  reconnectAttempts : ℕ
  pendingDelay : Option ℕ
deriving DecidableEq

/-- Embeds ws.onopen (lines 17-22): set isConnected, reset the attempt
counter to 0.  The pending timer reference is not touched by onopen. -/
def handleOpen (s : WSHookState) : WSHookState :=
  { s with isConnected := true, reconnectAttempts := 0 }

/-- Embeds ws.onclose (lines 42-54): clear isConnected; when
reconnectAttempts < 5, schedule a reconnect timer with the exponential
backoff delay; otherwise schedule nothing. -/
def handleClose (s : WSHookState) : WSHookState :=
  if s.reconnectAttempts < 5 then
    { s with isConnected := false,
             pendingDelay := some (reconnectDelay s.reconnectAttempts) }
  else
    { s with isConnected := false }

/-- Embeds the setTimeout callback of lines 49-52: when the scheduled timer
fires, the attempt counter is incremented and connect() is called; the
consumed timer is no longer pending. -/
def handleTimerFire (s : WSHookState) : WSHookState :=
  { s with reconnectAttempts := s.reconnectAttempts + 1, pendingDelay := none }

/-- One full failure cycle while the connection stays down: the socket
closes (scheduling a timer) and the timer then fires (incrementing the
counter and retrying). -/
def failCycle (s : WSHookState) : WSHookState :=
  handleTimerFire (handleClose s)

/-- The state right after a successful connection: connected, attempt
counter at its base value 0, no timer pending. -/
def connectedFresh : WSHookState :=
  { isConnected := true, reconnectAttempts := 0, pendingDelay := none }

/-- Embeds the readyState values of the WebSocket API used by sendMessage. -/
inductive ReadyState where
  | connecting
  | opened
  | closing
  | closed
deriving DecidableEq

/-- The part of a WebSocket object observed by sendMessage. -/
structure Socket where
  readyState : ReadyState
deriving DecidableEq

/-- A JSON value, as produced by the JavaScript object model. -/
inductive Json where
  | null : Json
  | bool (b : Bool) : Json
  | num (q : ℚ) : Json
  | str (s : String) : Json
  | arr (elems : List Json) : Json
  | obj (fields : List (String × Json)) : Json

/-- Escapes one character of a JSON string the way JSON.stringify does for
quotes and backslashes. -/
def escapeChar (c : Char) : String :=
  if c = '"' then "\\\"" else if c = '\\' then "\\\\" else String.mk [c]

/-- Escapes a JSON string body. -/
def escapeString (s : String) : String :=
  String.join (s.data.map escapeChar)

mutual

/-- Models JSON.stringify: serializes a JSON value to structured text. -/
def Json.stringify : Json → String
  | Json.null => "null"
  | Json.bool b => if b then "true" else "false"
  | Json.num q => toString q
  | Json.str s => "\"" ++ escapeString s ++ "\""
  | Json.arr elems => "[" ++ stringifyElems elems ++ "]"
  | Json.obj fields => "\x7b" ++ stringifyFields fields ++ "\x7d"

/-- Serializes the comma-separated elements of a JSON array. -/
def stringifyElems : List Json → String
  | [] => ""
  | [v] => Json.stringify v
  | v :: rest => Json.stringify v ++ "," ++ stringifyElems rest

/-- Serializes the comma-separated fields of a JSON object. -/
def stringifyFields : List (String × Json) → String
  | [] => ""
  | [(k, v)] => "\"" ++ escapeString k ++ "\":" ++ Json.stringify v
  | (k, v) :: rest =>
      "\"" ++ escapeString k ++ "\":" ++ Json.stringify v ++ "," ++ stringifyFields rest

end

/-- Embeds sendMessage (useWebSocket.js lines 74-80): when the socket
reference is set and its readyState is OPEN, the message is serialized with
JSON.stringify and sent, and true is returned; otherwise nothing is sent
and false is returned.  The result pair is (returned flag, payload put on
the wire, if any); totality of the function reflects that no code path
throws to the caller. -/
def sendMessage (ws : Option Socket) (message : Json) : Bool × Option String :=
  match ws with
  | some s =>
      if s.readyState = ReadyState.opened then (true, some (Json.stringify message))
      else (false, none)
  | none => (false, none)

end UseWebSocket

namespace MockWebSocket

/-- Embeds line 45 of the mock WebSocket service: newCount =
Math.max(0, Math.round(location.people_detected + variation)).  Math.round
rounds half toward positive infinity, which is what Mathlib round does. -/
def newCount (people_detected : ℤ) (variation : ℚ) : ℤ :=
  max 0 (round ((people_detected : ℚ) + variation))

/-- Embeds line 49 of the mock WebSocket service: newOccupancy =
Math.min(100, Math.max(0, (newCount / maxCapacity) * 100)). -/
def newOccupancy (count : ℤ) (maxCapacity : ℚ) : ℚ :=
  min 100 (max 0 (((count : ℚ) / maxCapacity) * 100))

/-- Embeds parseFloat(x.toFixed(1)) of line 54: rounding to one decimal. -/
def toFixed1 (q : ℚ) : ℚ :=
  (round (q * 10) : ℚ) / 10

/-- The maxCapacity constant of line 48. -/
def maxCapacity : ℚ := 20

/-- The numeric part of one entry update inside generateMockData
(lines 41-58): the new count and the occupancy percent put in the
outgoing record. -/
def updateEntry (people_detected : ℤ) (variation : ℚ) : ℤ × ℚ :=
  let c := newCount people_detected variation
  (c, toFixed1 (newOccupancy c maxCapacity))

end MockWebSocket

namespace Locations

/-- The four crowd levels returned by calculateCrowdLevel. -/
inductive CrowdLevel where
  | unknown
  | low
  | medium
  | high
deriving DecidableEq

/-- Embeds calculateCrowdLevel (Locations.js lines 113-125).  The input is
the occupancy percent: none stands for the JavaScript null or undefined,
some p for a numeric value. -/
def calculateCrowdLevel (occupancyPercent : Option ℚ) : CrowdLevel :=
  match occupancyPercent with
  | none => CrowdLevel.unknown
  | some p =>
      if p < 33 then CrowdLevel.low
      else if p < 67 then CrowdLevel.medium
      else CrowdLevel.high

/-- Lower-cases one character the way String.prototype.toLowerCase does on
the ASCII range (the range the nameMap keys live in). -/
def jsCharToLower (c : Char) : Char :=
  if 'A' ≤ c ∧ c ≤ 'Z' then Char.ofNat (c.toNat + 32) else c

/-- Models String.prototype.toLowerCase on ASCII strings. -/
def jsToLower (s : String) : String :=
  String.mk (s.data.map jsCharToLower)

/-- The whitespace characters stripped by String.prototype.trim (the ASCII
ones, which are the only ones relevant to the location names). -/
def jsWhitespace (c : Char) : Bool :=
  c == ' ' || c == '\t' || c == '\n' || c == '\r'

/-- Models String.prototype.trim: strip leading and trailing whitespace. -/
def jsTrim (s : String) : String :=
  String.mk (((s.data.dropWhile jsWhitespace).reverse.dropWhile jsWhitespace).reverse)

/-- Embeds the nameMap object literal of getLocationIdByName
(Locations.js lines 93-106). -/
def nameMap : List (String × String) :=
  [("flint loop", "flint"),
   ("flint", "flint"),
   ("one world", "ow"),
   ("ow", "ow"),
   ("student union 1", "su"),
   ("student union 2", "su"),
   ("student union 3", "su_full"),
   ("su", "su"),
   ("paula plaza", "paula"),
   ("paula", "paula"),
   ("tim hortons", "tims"),
   ("tims", "tims")]

/-- The property names every plain object inherits from Object.prototype.
A bracket read with one of these keys on an object literal that does not
shadow them walks the prototype chain and yields the inherited member - a
function, or the prototype object itself for the accessor at position
eight - which is truthy, not undefined. -/
def objectPrototypeKeys : List String :=
  ["constructor", "hasOwnProperty", "isPrototypeOf", "propertyIsEnumerable",
   "toLocaleString", "toString", "valueOf", "__proto__",
   "__defineGetter__", "__defineSetter__", "__lookupGetter__", "__lookupSetter__"]

/-- The possible results of the bracket lookup nameMap[normalizedName] with
the || null fallback of line 109: a hit on an own key of the object literal
yields the configured location id string; a hit on a key the literal
inherits from Object.prototype yields that truthy non-string member, so the
fallback does not fire and the caller receives a junk value; any other key
reads undefined, which the fallback turns into null. -/
inductive LookupResult where
  | id (locationId : String)
  | junk (protoName : String)
  | null
deriving DecidableEq

/-- Embeds getLocationIdByName (Locations.js lines 92-110): lower-case the
name, trim it, and look the normalized key up with JavaScript object
bracket semantics - own keys of nameMap first, then the Object.prototype
chain, then undefined turned into null.  A missing name normalizes to the
undefined key and reads null. -/
def getLocationIdByName (locationName : Option String) : LookupResult :=
  match locationName with
  | none => LookupResult.null
  | some s =>
      let key := jsTrim (jsToLower s)
      match nameMap.lookup key with
      | some v => LookupResult.id v
      | none =>
          if key ∈ objectPrototypeKeys then LookupResult.junk key
          else LookupResult.null

end Locations

namespace WebSocketContext

open Locations

/-- One crowdData entry as built by the WebSocketProvider message handler
(WebSocketContext.js lines 87-96).  lastUpdated is a timestamp value and
is not optional: the entry always carries one. -/
structure CrowdRecord where
  count : ℤ
  level : CrowdLevel
  occupancyPercent : Option ℚ
  lastUpdated : ℚ
  locationName : Option String
deriving DecidableEq

/-- One incoming crowd message, as read by the handler. -/
structure CrowdMessage where
  location_name : Option String
  people_detected : ℤ
  occupancy_percent : Option ℚ
  timestamp : ℚ

/-- The record the handler stores for a message. -/
def recordOfMessage (msg : CrowdMessage) : CrowdRecord :=
  { count := msg.people_detected
    level := calculateCrowdLevel msg.occupancy_percent
    occupancyPercent := msg.occupancy_percent
    lastUpdated := msg.timestamp
    locationName := msg.location_name }

/-- The string JavaScript produces when the truthy member inherited from
Object.prototype is used as a computed property key in the state update:
String(Object.prototype) for the accessor hit through __proto__, the
native-code source text of the inherited function otherwise (the function
reached through the constructor key is Object itself). -/
def junkKeyString (protoName : String) : String :=
  if protoName = "__proto__" then "[object Object]"
  else if protoName = "constructor" then "function Object() \x7b [native code] \x7d"
  else "function " ++ protoName ++ "() \x7b [native code] \x7d"

/-- Embeds the body of the onMessage handler for one message
(WebSocketContext.js lines 84-98): resolve the location id from the
message name; a resolved own id replaces exactly that entry of crowdData;
a truthy value inherited from Object.prototype also passes the if guard
and stores the record under the stringified junk key; only the null
result leaves crowdData untouched.  crowdData is modelled as the map
from key to its entry, if any. -/
def handleCrowdMessage (crowdData : String → Option CrowdRecord)
    (msg : CrowdMessage) : String → Option CrowdRecord :=
  match getLocationIdByName msg.location_name with
  | LookupResult.id locationId =>
      fun k => if k = locationId then some (recordOfMessage msg) else crowdData k
  | LookupResult.junk protoName =>
      fun k =>
        if k = junkKeyString protoName then some (recordOfMessage msg) else crowdData k
  | LookupResult.null => crowdData

/-- The default record returned by getCrowdData for an id with no entry
(WebSocketContext.js lines 122-128); now is the current Date value. -/
def defaultCrowdRecord (now : ℚ) : CrowdRecord :=
  { count := 0
    level := CrowdLevel.unknown
    occupancyPercent := none
    lastUpdated := now
    locationName := none }

/-- What getCrowdData hands back: a crowd record (stored or default), or a
truthy member the state object inherits from Object.prototype, which the
logical-or returns as-is instead of the default. -/
inductive CrowdDataResult where
  | record (r : CrowdRecord)
  | inherited (protoName : String)
deriving DecidableEq

/-- Embeds getCrowdData (WebSocketContext.js lines 121-129) with JavaScript
object bracket semantics: a stored own entry when one exists; otherwise the
bracket read walks the prototype chain, so an Object.prototype key yields
the inherited truthy member and the || fallback does not fire; every other
missing key reads undefined and falls back to the default record.
Totality of the function reflects that the code never throws. -/
def getCrowdData (crowdData : String → Option CrowdRecord)
    (locationId : String) (now : ℚ) : CrowdDataResult :=
  match crowdData locationId with
  | some r => CrowdDataResult.record r
  | none =>
      if locationId ∈ objectPrototypeKeys then CrowdDataResult.inherited locationId
      else CrowdDataResult.record (defaultCrowdRecord now)

end WebSocketContext

namespace ModelPipeline

/-- Modelled from the spec: the ZoneOccupancy record of the design
document (the Model pipeline sources are absent from the repository
snapshot; only the Model README describes them).  A zone has an identity,
a positive capacity and a non-negative detected count. -/
structure ZoneOccupancy where
  name : String
  capacity : ℕ
  detected : ℕ
deriving DecidableEq

/-- Modelled from the spec: the occupied-zone selection of the Summary -
a zone is occupied when its detected count is positive. -/
def occupiedZones (zones : List ZoneOccupancy) : List ZoneOccupancy :=
  zones.filter fun z => decide (0 < z.detected)

/-- Modelled from the spec: the free-zone selection of the Summary - a
zone is free when its detected count is zero. -/
def freeZones (zones : List ZoneOccupancy) : List ZoneOccupancy :=
  zones.filter fun z => decide (z.detected = 0)

/-- Modelled from the spec: the Summary record built by the
OccupancyEvaluator. -/
structure Summary where
  camera : String
  total_people : ℕ
  free : List String
  occupied : List String

/-- Modelled from the spec: Summary construction - total people is the sum
of detected counts, the free and occupied lists carry the zone names of
the corresponding selections. -/
def mkSummary (camera : String) (zones : List ZoneOccupancy) : Summary :=
  { camera := camera
    total_people := (zones.map fun z => z.detected).sum
    free := (freeZones zones).map fun z => z.name
    occupied := (occupiedZones zones).map fun z => z.name }

/-- Modelled from the spec: the bounded FrameQueue of the pipeline (its
Python implementation is absent from the repository snapshot).  Frames are
identified by a number; capacity is the configured bound. -/
structure FrameQueue where
  capacity : ℕ
  frames : List ℕ
deriving DecidableEq

/-- Modelled from the spec: enqueue under the saturation policy - a frame
is appended while the queue is below capacity; against a full queue the
incoming frame is dropped (after the bounded blocking timeout, which the
model abstracts away) and the drop is reported in the returned flag. -/
def FrameQueue.enqueue (q : FrameQueue) (f : ℕ) : FrameQueue × Bool :=
  if q.frames.length < q.capacity then
    ({ q with frames := q.frames ++ [f] }, false)
  else
    (q, true)

/-- Modelled from the spec: dequeue removes the oldest frame, if any. -/
def FrameQueue.dequeue (q : FrameQueue) : FrameQueue × Option ℕ :=
  match q.frames with
  | [] => (q, none)
  | f :: rest => ({ q with frames := rest }, some f)

/-- Modelled from the spec: the states of a FrameQueue of capacity cap
reachable in the pipeline - from the empty queue through any interleaving
of enqueues and dequeues. -/
inductive FrameQueue.Reachable (cap : ℕ) : FrameQueue → Prop where
  | init : FrameQueue.Reachable cap { capacity := cap, frames := [] }
  | enq (q : FrameQueue) (f : ℕ) :
      FrameQueue.Reachable cap q → FrameQueue.Reachable cap (q.enqueue f).1
  | deq (q : FrameQueue) :
      FrameQueue.Reachable cap q → FrameQueue.Reachable cap q.dequeue.1

end ModelPipeline

/-!
Theorems.  Each claim of the specification review is settled by exactly one
theorem below, with a closed witness instance where the theorem carries a
hypothesis.
-/

namespace UseWebSocket

/-- Helper: after k consecutive failure cycles from a freshly connected
state, the attempt counter stands at k. -/
theorem failCycle_attempts (k : ℕ) :
    (failCycle^[k] connectedFresh).reconnectAttempts = k := by
  induction k with
  | zero => rfl
  | succ n ih =>
      rw [Function.iterate_succ_apply']
      simp only [failCycle, handleTimerFire, handleClose]
      split <;> simp [ih]

/-- C1: starting from a fresh connection, the delay scheduled before the
k-th consecutive reconnection attempt equals min(1000ms * 2 ^ k, 30000ms),
for every attempt the code actually schedules (k < 5); with the base delay
of 1s the first three retry delays are 1s, 2s and 4s, and every delay the
formula can produce is capped at the 30s ceiling. -/
theorem reconnect_backoff_formula :
    (∀ k : ℕ, k < 5 →
      (handleClose (failCycle^[k] connectedFresh)).pendingDelay
        = some (min (1000 * 2 ^ k) 30000)) ∧
    (handleClose connectedFresh).pendingDelay = some 1000 ∧
    (handleClose (failCycle connectedFresh)).pendingDelay = some 2000 ∧
    (handleClose (failCycle (failCycle connectedFresh))).pendingDelay = some 4000 ∧
    (∀ n : ℕ, reconnectDelay n ≤ 30000) := by
  refine ⟨?_, by decide, by decide, by decide, fun n => min_le_right _ _⟩
  intro k hk
  simp [handleClose, failCycle_attempts, hk, reconnectDelay]

/-- Witness for C1: the third retry delay is 4000ms. -/
theorem reconnect_backoff_formula_witness :
    (handleClose (failCycle^[2] connectedFresh)).pendingDelay = some 4000 := by
  have h := reconnect_backoff_formula.1 2 (by norm_num)
  simpa using h

/-- C2 counterexample: with the attempt counter at 5 (five consecutive
failures already retried), a further close event schedules no reconnection
attempt at all - the claim that a retry is always scheduled fails here. -/
theorem no_retry_at_five_failures :
    (handleClose { isConnected := false, reconnectAttempts := 5,
                   pendingDelay := none }).pendingDelay = none := by
  decide

/-- C2 (amended): on a close event a reconnection attempt is scheduled
after the backoff delay exactly while the consecutive-attempt counter is
below 5; once it reaches 5 the code schedules nothing further, so retrying
stops permanently even though the connection stays down. -/
theorem retry_scheduled_iff_attempts_below_five (s : WSHookState) :
    (s.reconnectAttempts < 5 →
      (handleClose s).pendingDelay = some (reconnectDelay s.reconnectAttempts)) ∧
    (5 ≤ s.reconnectAttempts → (handleClose s).pendingDelay = s.pendingDelay) := by
  constructor
  · intro h; simp [handleClose, h]
  · intro h; simp [handleClose, Nat.not_lt.mpr h]

/-- Witness for the amended C2: at 3 prior attempts a retry is scheduled
after 8000ms, at 7 none is scheduled. -/
theorem retry_scheduled_iff_attempts_below_five_witness :
    (handleClose { isConnected := false, reconnectAttempts := 3,
                   pendingDelay := none }).pendingDelay = some 8000 ∧
    (handleClose { isConnected := false, reconnectAttempts := 7,
                   pendingDelay := none }).pendingDelay = none := by
  constructor
  · have h := (retry_scheduled_iff_attempts_below_five
      { isConnected := false, reconnectAttempts := 3, pendingDelay := none }).1
      (by norm_num)
    simpa [reconnectDelay] using h
  · exact (retry_scheduled_iff_attempts_below_five
      { isConnected := false, reconnectAttempts := 7, pendingDelay := none }).2
      (by norm_num)

/-- C3: the backoff delay is non-decreasing in the attempt counter (hence
non-decreasing across consecutive failures, up to the ceiling enforced by
the formula), a successful open resets the counter to its base value 0,
and therefore the close that follows a success schedules the base delay of
1000ms again. -/
theorem backoff_monotone_and_resets :
    (∀ m n : ℕ, m ≤ n → reconnectDelay m ≤ reconnectDelay n) ∧
    (∀ s : WSHookState, (handleOpen s).reconnectAttempts = 0) ∧
    (∀ s : WSHookState, (handleClose (handleOpen s)).pendingDelay = some 1000) := by
  refine ⟨fun m n h => ?_, fun s => rfl, fun s => ?_⟩
  · exact min_le_min
      (Nat.mul_le_mul_left _ (Nat.pow_le_pow_right (by norm_num) h)) le_rfl
  · simp [handleClose, handleOpen, reconnectDelay]

/-- Witness for C3: delay at attempt 1 is at most the delay at attempt 3,
and a close right after a successful open schedules the base 1000ms. -/
theorem backoff_monotone_and_resets_witness :
    reconnectDelay 1 ≤ reconnectDelay 3 ∧
    (handleClose (handleOpen
      { isConnected := false, reconnectAttempts := 4,
        pendingDelay := none })).pendingDelay = some 1000 := by
  exact ⟨backoff_monotone_and_resets.1 1 3 (by norm_num),
    backoff_monotone_and_resets.2.2 _⟩

/-- C4: when the socket reference is set and open, sendMessage serializes
the payload with JSON.stringify, sends it and returns true; in every other
situation it sends nothing and returns false.  The embedding is a total
function, reflecting that no path raises an error to the caller. -/
theorem sendMessage_open_or_drop (ws : Option Socket) (message : Json) :
    ((∃ s, ws = some s ∧ s.readyState = ReadyState.opened) →
      sendMessage ws message = (true, some (Json.stringify message))) ∧
    ((¬ ∃ s, ws = some s ∧ s.readyState = ReadyState.opened) →
      sendMessage ws message = (false, none)) := by
  constructor
  · rintro ⟨s, rfl, hs⟩
    simp [sendMessage, hs]
  · intro h
    match ws with
    | none => rfl
    | some s =>
        have hs : s.readyState ≠ ReadyState.opened := fun heq => h ⟨s, rfl, heq⟩
        simp [sendMessage, hs]

/-- Witness for C4: an open socket sends the serialized string and returns
true; a closed one sends nothing and returns false. -/
theorem sendMessage_open_or_drop_witness :
    sendMessage (some { readyState := ReadyState.opened }) (Json.str "hi")
      = (true, some "\"hi\"") ∧
    sendMessage (some { readyState := ReadyState.closed }) (Json.str "hi")
      = (false, none) := by
  constructor
  · have h := (sendMessage_open_or_drop
      (some { readyState := ReadyState.opened }) (Json.str "hi")).1
      ⟨_, rfl, rfl⟩
    simpa [Json.stringify, escapeString, escapeChar] using h
  · exact (sendMessage_open_or_drop
      (some { readyState := ReadyState.closed }) (Json.str "hi")).2
      (by rintro ⟨s, hs, h⟩; cases hs; cases h)

end UseWebSocket

namespace MockWebSocket

/-- C5: for every detected count c ≥ 0 and capacity k > 0, the occupancy
value computed by the mock generator equals min(c / k, 1) * 100 and lies
in [0, 100], and the generated people count is never negative. -/
theorem occupancy_clamped (c : ℤ) (k : ℚ) (hc : 0 ≤ c) (hk : 0 < k) :
    (newOccupancy c k = min ((c : ℚ) / k) 1 * 100 ∧
     0 ≤ newOccupancy c k ∧ newOccupancy c k ≤ 100) ∧
    (∀ (pd : ℤ) (v : ℚ), 0 ≤ newCount pd v) := by
  have hq : (0 : ℚ) ≤ (c : ℚ) / k := by positivity
  have hmax : max 0 (((c : ℚ) / k) * 100) = ((c : ℚ) / k) * 100 := by
    rw [max_eq_right]; positivity
  have hform : newOccupancy c k = min ((c : ℚ) / k) 1 * 100 := by
    rw [newOccupancy, hmax]
    rcases le_total ((c : ℚ) / k) 1 with h | h
    · rw [min_eq_right (by linarith), min_eq_left h]
    · rw [min_eq_left (by linarith), min_eq_right h]
      norm_num
  refine ⟨⟨hform, ?_, ?_⟩, fun pd v => le_max_left 0 _⟩
  · rw [hform]
    have : (0 : ℚ) ≤ min ((c : ℚ) / k) 1 := le_min hq (by norm_num)
    positivity
  · rw [newOccupancy]
    exact min_le_left _ _

/-- Witness for C5: a count of 30 against capacity 20 clamps to 100. -/
theorem occupancy_clamped_witness :
    newOccupancy 30 20 = min ((30 : ℚ) / 20) 1 * 100 ∧ newOccupancy 30 20 ≤ 100 := by
  have h := occupancy_clamped 30 20 (by norm_num) (by norm_num)
  exact ⟨h.1.1, h.1.2.2⟩

end MockWebSocket

namespace ModelPipeline

/-- Helper: the occupied and free selections together count every zone of
the input list exactly once. -/
theorem occupied_free_length (zones : List ZoneOccupancy) :
    (occupiedZones zones).length + (freeZones zones).length = zones.length := by
  induction zones with
  | nil => rfl
  | cons z rest ih =>
      by_cases h : z.detected = 0
      · simp [occupiedZones, freeZones, List.filter, h] at ih ⊢
        omega
      · have h0 : 0 < z.detected := Nat.pos_of_ne_zero h
        simp [occupiedZones, freeZones, List.filter, h, h0] at ih ⊢
        omega

/-- C6: every configured zone lands in the occupied selection exactly when
its detected count is positive, in the free selection exactly when the
count is zero, never in both, and the two selections together exhaust the
configured zone list (their lengths sum to it), so free and occupied
partition the zones exactly. -/
theorem summary_zone_partition (zones : List ZoneOccupancy) (z : ZoneOccupancy)
    (hz : z ∈ zones) :
    ((z ∈ occupiedZones zones ↔ 0 < z.detected) ∧
     (z ∈ freeZones zones ↔ z.detected = 0) ∧
     (z ∈ occupiedZones zones ↔ z ∉ freeZones zones)) ∧
    (occupiedZones zones).length + (freeZones zones).length = zones.length := by
  refine ⟨⟨?_, ?_, ?_⟩, occupied_free_length zones⟩
  · simp [occupiedZones, List.mem_filter, hz]
  · simp [freeZones, List.mem_filter, hz]
  · simp [occupiedZones, freeZones, List.mem_filter, hz]
    omega

/-- Witness for C6: in a two-zone camera with counts 2 and 0, the first
zone is occupied and the selections cover both zones. -/
theorem summary_zone_partition_witness :
    (ZoneOccupancy.mk "Zone A" 3 2 ∈
      occupiedZones [ZoneOccupancy.mk "Zone A" 3 2, ZoneOccupancy.mk "Zone B" 5 0]) ∧
    (occupiedZones [ZoneOccupancy.mk "Zone A" 3 2, ZoneOccupancy.mk "Zone B" 5 0]).length
      + (freeZones [ZoneOccupancy.mk "Zone A" 3 2, ZoneOccupancy.mk "Zone B" 5 0]).length
      = 2 := by
  have h := summary_zone_partition
    [ZoneOccupancy.mk "Zone A" 3 2, ZoneOccupancy.mk "Zone B" 5 0]
    (ZoneOccupancy.mk "Zone A" 3 2) (by simp)
  exact ⟨h.1.1.mpr (by norm_num), h.2⟩

/-- C7: every reachable FrameQueue state holds at most its configured
capacity of frames, and an enqueue against a full queue leaves the queue
unchanged and reports a drop instead of growing beyond the bound (the
bounded blocking timeout before the drop is abstracted by the model). -/
theorem frameQueue_bounded (cap : ℕ) (q : FrameQueue)
    (hq : FrameQueue.Reachable cap q) :
    q.frames.length ≤ q.capacity ∧
    (∀ f, q.frames.length = q.capacity → q.enqueue f = (q, true)) := by
  have hfull : ∀ (r : FrameQueue) (f : ℕ),
      r.frames.length = r.capacity → r.enqueue f = (r, true) := by
    intro r f h
    simp [FrameQueue.enqueue, h]
  refine ⟨?_, fun f h => hfull q f h⟩
  induction hq with
  | init => simp
  | enq q f ih hlen =>
      by_cases h : q.frames.length < q.capacity
      · simp [FrameQueue.enqueue, h]
        omega
      · simp [FrameQueue.enqueue, h]
        exact hlen
  | deq q ih hlen =>
      match hm : q.frames with
      | [] => simp [FrameQueue.dequeue, hm]
      | f :: rest =>
          simp [FrameQueue.dequeue, hm] at hlen ⊢
          omega

/-- Witness for C7: the empty queue of capacity 2 is reachable and within
its bound. -/
theorem frameQueue_bounded_witness :
    (FrameQueue.mk 2 []).frames.length ≤ (FrameQueue.mk 2 []).capacity := by
  exact (frameQueue_bounded 2 (FrameQueue.mk 2 []) FrameQueue.Reachable.init).1

end ModelPipeline

namespace Locations

/-- C8: calculateCrowdLevel always yields one of the four levels, and the
level is unknown exactly when the input percent is null or undefined, low
exactly when it is a number below 33, medium exactly when it lies in
[33, 67), and high exactly when it is at least 67. -/
theorem calculateCrowdLevel_cases (x : Option ℚ) :
    (calculateCrowdLevel x = CrowdLevel.unknown ↔ x = none) ∧
    (∀ p : ℚ, x = some p →
      ((calculateCrowdLevel x = CrowdLevel.low ↔ p < 33) ∧
       (calculateCrowdLevel x = CrowdLevel.medium ↔ 33 ≤ p ∧ p < 67) ∧
       (calculateCrowdLevel x = CrowdLevel.high ↔ 67 ≤ p))) := by
  match x with
  | none => simp [calculateCrowdLevel]
  | some q =>
      have hu : calculateCrowdLevel (some q) ≠ CrowdLevel.unknown := by
        simp only [calculateCrowdLevel]
        split_ifs <;> simp
      refine ⟨by simp [hu], ?_⟩
      rintro p hp
      cases hp
      refine ⟨?_, ?_, ?_⟩
      · simp only [calculateCrowdLevel]
        split_ifs with h1 h2
        · simp [h1]
        · simp [h1]
        · simp [h1]
      · simp only [calculateCrowdLevel]
        split_ifs with h1 h2
        · simp only [reduceCtorEq, false_iff, not_and, not_lt]
          intro h
          linarith
        · simp only [true_iff]
          exact ⟨not_lt.mp h1, h2⟩
        · simp only [reduceCtorEq, false_iff, not_and, not_lt]
          intro h
          linarith
      · simp only [calculateCrowdLevel]
        split_ifs with h1 h2
        · simp only [reduceCtorEq, false_iff, not_le]
          linarith
        · simp only [reduceCtorEq, false_iff, not_le]
          linarith
        · simp only [true_iff]
          exact not_lt.mp h2

/-- Witness for C8: an occupancy of 40 classifies as medium and a null
percent as unknown. -/
theorem calculateCrowdLevel_cases_witness :
    calculateCrowdLevel (some 40) = CrowdLevel.medium ∧
    calculateCrowdLevel none = CrowdLevel.unknown := by
  refine ⟨((calculateCrowdLevel_cases (some 40)).2 40 rfl).2.1.mpr (by norm_num), ?_⟩
  exact (calculateCrowdLevel_cases none).1.mpr rfl

end Locations

namespace WebSocketContext

open Locations

/-- C9 counterexample: the message name "constructor" resolves to the
truthy Object constructor inherited through the prototype chain of the
nameMap literal - not to any known location id - yet the handler passes
its truthiness guard and stores the record under the stringified function
key, so crowdData does change for a name that maps to no known id. -/
theorem crowdData_changed_for_unmapped_name :
    getLocationIdByName (some "constructor") = LookupResult.junk "constructor" ∧
    handleCrowdMessage (fun _ => none)
        (CrowdMessage.mk (some "constructor") 1 none 0)
        "function Object() \x7b [native code] \x7d"
      = some (recordOfMessage (CrowdMessage.mk (some "constructor") 1 none 0)) ∧
    handleCrowdMessage (fun _ => none)
        (CrowdMessage.mk (some "constructor") 1 none 0)
      ≠ (fun _ => none) := by
  refine ⟨by decide, by decide, fun h => ?_⟩
  exact absurd (congrFun h "function Object() \x7b [native code] \x7d") (by decide)

/-- C9 (amended): one incoming crowd message rewrites at most one key of
crowdData.  When its (trimmed, case-insensitively matched) location_name
resolves to a known location id, exactly that entry receives the record
built from the message and every other key is unchanged; when the
normalized name matches neither a nameMap key nor a property inherited
from Object.prototype, crowdData is left entirely unchanged; when it hits
an inherited Object.prototype member (constructor or __proto__ survive the
lower-casing), the record is stored under the stringified junk key and
every other key is unchanged. -/
theorem handleCrowdMessage_frame (crowdData : String → Option CrowdRecord)
    (msg : CrowdMessage) :
    (∀ locationId, getLocationIdByName msg.location_name = LookupResult.id locationId →
      handleCrowdMessage crowdData msg locationId = some (recordOfMessage msg) ∧
      ∀ k, k ≠ locationId → handleCrowdMessage crowdData msg k = crowdData k) ∧
    (getLocationIdByName msg.location_name = LookupResult.null →
      handleCrowdMessage crowdData msg = crowdData) ∧
    (∀ protoName, getLocationIdByName msg.location_name = LookupResult.junk protoName →
      handleCrowdMessage crowdData msg (junkKeyString protoName)
        = some (recordOfMessage msg) ∧
      ∀ k, k ≠ junkKeyString protoName →
        handleCrowdMessage crowdData msg k = crowdData k) := by
  refine ⟨?_, ?_, ?_⟩
  · intro locationId h
    unfold handleCrowdMessage
    rw [h]
    exact ⟨by simp, fun k hk => by simp [hk]⟩
  · intro h
    unfold handleCrowdMessage
    rw [h]
  · intro protoName h
    unfold handleCrowdMessage
    rw [h]
    exact ⟨by simp, fun k hk => by simp [hk]⟩

/-- Witness for the amended C9: a message named with extra spaces and
capitals updates the flint entry and leaves the su entry untouched, a
message with an unknown name changes nothing, and a message named
__proto__ stores its record under the stringified prototype key. -/
theorem handleCrowdMessage_frame_witness :
    handleCrowdMessage (fun _ => none)
      (CrowdMessage.mk (some "  Flint LOOP ") 4 (some 25) 0) "flint"
      = some (recordOfMessage (CrowdMessage.mk (some "  Flint LOOP ") 4 (some 25) 0)) ∧
    handleCrowdMessage (fun _ => none)
      (CrowdMessage.mk (some "  Flint LOOP ") 4 (some 25) 0) "su" = none ∧
    handleCrowdMessage (fun _ => none)
      (CrowdMessage.mk (some "Flint Hall") 4 (some 25) 0)
      = (fun _ => none) ∧
    handleCrowdMessage (fun _ => none)
      (CrowdMessage.mk (some "__proto__") 2 none 0) "[object Object]"
      = some (recordOfMessage (CrowdMessage.mk (some "__proto__") 2 none 0)) := by
  refine ⟨?_, ?_, ?_, ?_⟩
  · exact ((handleCrowdMessage_frame (fun _ => none)
      (CrowdMessage.mk (some "  Flint LOOP ") 4 (some 25) 0)).1 "flint" (by decide)).1
  · exact ((handleCrowdMessage_frame (fun _ => none)
      (CrowdMessage.mk (some "  Flint LOOP ") 4 (some 25) 0)).1 "flint" (by decide)).2
      "su" (by decide)
  · exact (handleCrowdMessage_frame (fun _ => none)
      (CrowdMessage.mk (some "Flint Hall") 4 (some 25) 0)).2.1 (by decide)
  · have h := ((handleCrowdMessage_frame (fun _ => none)
      (CrowdMessage.mk (some "__proto__") 2 none 0)).2.2 "__proto__" (by decide)).1
    have hk : junkKeyString "__proto__" = "[object Object]" := by decide
    rw [hk] at h
    exact h

/-- C10 counterexample: the id "toString" never received an update, yet
getCrowdData returns the truthy toString function the state object
inherits from Object.prototype - not the default record - because the
bracket read walks the prototype chain before the || fallback can fire. -/
theorem getCrowdData_inherited_counterexample :
    getCrowdData (fun _ => none) "toString" 0 = CrowdDataResult.inherited "toString" ∧
    getCrowdData (fun _ => none) "toString" 0
      ≠ CrowdDataResult.record (defaultCrowdRecord 0) := by
  exact ⟨by decide, by decide⟩

/-- C10 (amended): for a location id with no stored entry, getCrowdData
returns the default record - count 0, level unknown, null occupancy
percent, null location name and the present Date as lastUpdated -
provided the id is not a property name inherited from Object.prototype;
for an inherited name (constructor, toString, hasOwnProperty, __proto__,
and the like) with no stored entry it returns the inherited truthy member
instead of the default.  Totality of the embedding reflects that the code
never throws. -/
theorem getCrowdData_default (crowdData : String → Option CrowdRecord)
    (locationId : String) (now : ℚ) (h : crowdData locationId = none) :
    (locationId ∉ objectPrototypeKeys →
      getCrowdData crowdData locationId now =
        CrowdDataResult.record
          { count := 0
            level := CrowdLevel.unknown
            occupancyPercent := none
            lastUpdated := now
            locationName := none }) ∧
    (locationId ∈ objectPrototypeKeys →
      getCrowdData crowdData locationId now = CrowdDataResult.inherited locationId) := by
  unfold getCrowdData
  rw [h]
  constructor
  · intro hn
    rw [if_neg hn]
    rfl
  · intro hm
    rw [if_pos hm]

/-- Witness for the amended C10: an ordinary absent id yields the default
record, while the inherited hasOwnProperty key yields the inherited
member. -/
theorem getCrowdData_default_witness :
    getCrowdData (fun _ => none) "library" 0 =
      CrowdDataResult.record
        { count := 0
          level := CrowdLevel.unknown
          occupancyPercent := none
          lastUpdated := 0
          locationName := none } ∧
    getCrowdData (fun _ => none) "hasOwnProperty" 0 =
      CrowdDataResult.inherited "hasOwnProperty" := by
  exact ⟨(getCrowdData_default (fun _ => none) "library" 0 rfl).1 (by decide),
         (getCrowdData_default (fun _ => none) "hasOwnProperty" 0 rfl).2 (by decide)⟩

end WebSocketContext
